import Mathlib

/-!
Shallow embedding of `src/graphics/post_processing.cpp` (SuperTuxKart
motion-blur post-processing pass).

The `PostProcessing` object holds a support flag, a per-frame usage flag,
a decaying boost amount (a C `float`, modelled here as a rational so that
the arithmetic of the source is exact), a render-target handle and a
material descriptor.  Effects on the video driver are modelled as an
explicit trace of `DriverCall`s returned next to the new state; log
output is modelled as a list of `Warning` tags; the global configuration
flag `UserConfigParams::m_postprocess_enabled` and the value of
`race_manager->getNumPlayers()` are passed in as an environment.
-/

namespace STK

/-- Material descriptor: the fields of `m_material` that `init` assigns
(`MaterialType`, texture slot 0, `Wireframe`, `Lighting`, `ZWriteEnable`). -/
structure Material where
  materialType : Int
  texture0 : Option Unit
  wireframe : Bool
  lighting : Bool
  zWriteEnable : Bool
deriving DecidableEq, Repr

/-- The member state of the `PostProcessing` object. -/
structure PostProcessing where
  m_supported : Bool
  m_used_pp_this_frame : Bool
  m_boost_amount : ℚ
  m_render_target : Option Unit
  m_material : Material
deriving DecidableEq, Repr

/-- Globals read by `beginCapture` / `endCapture` / `render`:
`UserConfigParams::m_postprocess_enabled` and
`race_manager->getNumPlayers()`. -/
structure Env where
  postprocess_enabled : Bool
  numPlayers : Nat
deriving DecidableEq, Repr

/-- A call made on the video driver (the observable effects of
`beginCapture`, `endCapture` and `render`). -/
inductive DriverCall where
  | setRenderTargetTexture
  | setRenderTargetFrameBuffer
  | setMaterial
  | drawIndexedTriangleList
deriving DecidableEq, Repr

/-- A `Log::warn` message emitted by `init`. -/
inductive Warning where
  | onlyPowerOfTwoTextures
  | onlySquareTextures
  | renderTargetCreationFailed
deriving DecidableEq, Repr

/-- A value passed to `setPixelShaderConstant` by `OnSetConstants`. -/
inductive UniformValue where
  | floatVal (q : ℚ)
  | intVal (n : Int)
deriving DecidableEq, Repr

/-- `PostProcessing::PostProcessing()`: only `m_boost_amount` is
initialised (to `0.0f`); the remaining members are left indeterminate,
so they are parameters here. -/
def PostProcessing.construct (sup used : Bool) (rt : Option Unit)
    (mat : Material) : PostProcessing :=
  { m_supported := sup, m_used_pp_this_frame := used, m_boost_amount := 0,
    m_render_target := rt, m_material := mat }

/-- Inputs to `PostProcessing::init`: the five capability queries on the
video driver, whether `addRenderTargetTexture` returns a non-null
target, the material id returned by the shader compilation, and the
shader directory returned by `file_manager->getShaderDir()`. -/
structure InitInput where
  arb_glsl : Bool
  pixel_shader_2_0 : Bool
  render_to_target : Bool
  texture_nsquare : Bool
  texture_npot : Bool
  rtt_ok : Bool
  shader_material : Int
  shader_dir : String
deriving DecidableEq, Repr

/-- Result of `PostProcessing::init`: the new member state, the value of
`UserConfigParams::m_postprocess_enabled` after the call, the warnings
logged, and the shader files passed to
`addHighLevelShaderMaterialFromFiles` (in order: vertex, fragment). -/
structure InitOutput where
  state : PostProcessing
  postprocess_enabled : Bool
  warnings : List Warning
  shader_files : List String
deriving DecidableEq, Repr

/-- `PostProcessing::init`. -/
def PostProcessing.init (inp : InitInput) (cfg : Bool)
    (s : PostProcessing) : InitOutput :=
  let supported := inp.arb_glsl && inp.pixel_shader_2_0 && inp.render_to_target
  let warnNPot : List Warning :=
    if !inp.texture_npot then [Warning.onlyPowerOfTwoTextures] else []
  let warnNSquare : List Warning :=
    if !inp.texture_nsquare then [Warning.onlySquareTextures] else []
  let s1 := { s with m_supported := supported }
  if supported then
    let rt : Option Unit := if inp.rtt_ok then some () else none
    let rtWarn : List Warning :=
      if !inp.rtt_ok then [Warning.renderTargetCreationFailed] else []
    let cfg1 := if !inp.rtt_ok then false else cfg
    { state := { s1 with
        m_render_target := rt,
        m_material := { materialType := inp.shader_material, texture0 := rt,
                        wireframe := false, lighting := false,
                        zWriteEnable := false } },
      postprocess_enabled := cfg1,
      warnings := warnNPot ++ warnNSquare ++ rtWarn,
      shader_files := [inp.shader_dir ++ "motion_blur.vert",
                       inp.shader_dir ++ "motion_blur.frag"] }
  else
    { state := s1, postprocess_enabled := cfg,
      warnings := warnNPot ++ warnNSquare, shader_files := [] }

/-- `PostProcessing::shut`: both branches leave the state unchanged. -/
def PostProcessing.shut (s : PostProcessing) : PostProcessing := s

/-- `PostProcessing::beginCapture`. -/
def PostProcessing.beginCapture (env : Env) (s : PostProcessing) :
    PostProcessing × List DriverCall :=
  if !s.m_supported || !env.postprocess_enabled
      || decide (env.numPlayers > 1) then
    (s, [])
  else if s.m_boost_amount ≤ 0 then
    ({ s with m_used_pp_this_frame := false }, [])
  else
    ({ s with m_used_pp_this_frame := true },
     [DriverCall.setRenderTargetTexture])

/-- `PostProcessing::endCapture`. -/
def PostProcessing.endCapture (env : Env) (s : PostProcessing) :
    PostProcessing × List DriverCall :=
  if !s.m_supported || !env.postprocess_enabled
      || decide (env.numPlayers > 1) then
    (s, [])
  else if s.m_used_pp_this_frame then
    (s, [DriverCall.setRenderTargetFrameBuffer])
  else
    (s, [])

/-- `PostProcessing::update(float dt)`. -/
def PostProcessing.update (dt : ℚ) (s : PostProcessing) : PostProcessing :=
  if s.m_boost_amount > 0 then
    let b := s.m_boost_amount - dt * (7/2)
    { s with m_boost_amount := if b < 0 then 0 else b }
  else s

/-- `PostProcessing::render`. -/
def PostProcessing.render (env : Env) (s : PostProcessing) :
    PostProcessing × List DriverCall :=
  if !s.m_supported || !env.postprocess_enabled
      || decide (env.numPlayers > 1) then
    (s, [])
  else if !s.m_used_pp_this_frame then
    (s, [])
  else
    (s, [DriverCall.setMaterial, DriverCall.drawIndexedTriangleList])

/-- `PostProcessing::giveBoost`. -/
def PostProcessing.giveBoost (s : PostProcessing) : PostProcessing :=
  { s with m_boost_amount := 5/2 }

/-- `PostProcessing::OnSetConstants`: the pixel-shader constants set,
in call order. -/
def PostProcessing.OnSetConstants (s : PostProcessing) :
    List (String × UniformValue) :=
  [("boost_amount", UniformValue.floatVal s.m_boost_amount),
   ("color_buffer", UniformValue.intVal 0)]

/-- A sequence of `update` calls, applied left to right. -/
def PostProcessing.updates (l : List ℚ) (s : PostProcessing) :
    PostProcessing :=
  l.foldl (fun s dt => PostProcessing.update dt s) s

/-- Concrete material value used in witnesses. -/
def mat0 : Material :=
  { materialType := 0, texture0 := none, wireframe := false,
    lighting := true, zWriteEnable := true }

/-- A concrete supported, boosted state used in witnesses. -/
def ppBoost : PostProcessing :=
  { m_supported := true, m_used_pp_this_frame := false,
    m_boost_amount := 5/2, m_render_target := some (), m_material := mat0 }

/-- A concrete idle state used in witnesses. -/
def ppIdle : PostProcessing :=
  { m_supported := true, m_used_pp_this_frame := false,
    m_boost_amount := 0, m_render_target := some (), m_material := mat0 }

/-- C6: `OnSetConstants` always passes the current `m_boost_amount` as
the scalar uniform "boost_amount" and texture unit 0 as "color_buffer",
for every state of the object. -/
theorem onSetConstants_uniforms (s : PostProcessing) :
    PostProcessing.OnSetConstants s =
      [("boost_amount", UniformValue.floatVal s.m_boost_amount),
       ("color_buffer", UniformValue.intVal 0)] := rfl

/-- C9: `giveBoost` sets `m_boost_amount` to exactly 2.5 regardless of
the previous value, and is idempotent. -/
theorem giveBoost_resets (s : PostProcessing) :
    (PostProcessing.giveBoost s).m_boost_amount = 5/2 ∧
    PostProcessing.giveBoost (PostProcessing.giveBoost s) =
      PostProcessing.giveBoost s :=
  ⟨rfl, rfl⟩

/-- C1: whenever the feature is unsupported, or the configuration flag
is off, or more than one player is active, each of `beginCapture`,
`endCapture` and `render` returns with no driver call and no change to
any member. -/
theorem guard_skips_all (env : Env) (s : PostProcessing)
    (h : s.m_supported = false ∨ env.postprocess_enabled = false ∨
         env.numPlayers > 1) :
    PostProcessing.beginCapture env s = (s, []) ∧
    PostProcessing.endCapture env s = (s, []) ∧
    PostProcessing.render env s = (s, []) := by
  have hg : (!s.m_supported || !env.postprocess_enabled
      || decide (env.numPlayers > 1)) = true := by
    rcases h with h | h | h <;> simp [h]
  refine ⟨?_, ?_, ?_⟩ <;>
    simp [PostProcessing.beginCapture, PostProcessing.endCapture,
      PostProcessing.render, hg]

/-- Witness for C1 at a concrete disabled state. -/
theorem guard_skips_all_witness :
    PostProcessing.beginCapture ⟨false, 1⟩ ppBoost = (ppBoost, []) ∧
    PostProcessing.endCapture ⟨false, 1⟩ ppBoost = (ppBoost, []) ∧
    PostProcessing.render ⟨false, 1⟩ ppBoost = (ppBoost, []) :=
  guard_skips_all ⟨false, 1⟩ ppBoost (Or.inr (Or.inl rfl))

/-- C5: when supported, enabled and at most one player, `beginCapture`
redirects to the render target exactly when the boost is positive
(recording that in `m_used_pp_this_frame`), and `endCapture` restores
the frame buffer exactly when `m_used_pp_this_frame` is set. -/
theorem capture_redirect (env : Env) (s : PostProcessing)
    (hs : s.m_supported = true) (he : env.postprocess_enabled = true)
    (hp : env.numPlayers ≤ 1) :
    (s.m_boost_amount ≤ 0 →
      PostProcessing.beginCapture env s =
        ({ s with m_used_pp_this_frame := false }, [])) ∧
    (0 < s.m_boost_amount →
      PostProcessing.beginCapture env s =
        ({ s with m_used_pp_this_frame := true },
         [DriverCall.setRenderTargetTexture])) ∧
    PostProcessing.endCapture env s =
      (s, if s.m_used_pp_this_frame then
            [DriverCall.setRenderTargetFrameBuffer] else []) := by
  have hg : (!s.m_supported || !env.postprocess_enabled
      || decide (env.numPlayers > 1)) = false := by
    simp [hs, he, Nat.not_lt.mpr hp]
  refine ⟨fun hb => ?_, fun hb => ?_, ?_⟩
  · simp [PostProcessing.beginCapture, hg, hb]
  · simp [PostProcessing.beginCapture, hg, not_le.mpr hb]
  · by_cases hu : s.m_used_pp_this_frame <;>
      simp [PostProcessing.endCapture, hg, hu]

/-- Witness for C5: boosted state with one player. -/
theorem capture_redirect_witness :
    PostProcessing.beginCapture ⟨true, 1⟩ ppBoost =
      ({ ppBoost with m_used_pp_this_frame := true },
       [DriverCall.setRenderTargetTexture]) ∧
    PostProcessing.beginCapture ⟨true, 1⟩ ppIdle =
      ({ ppIdle with m_used_pp_this_frame := false }, []) :=
  ⟨(capture_redirect ⟨true, 1⟩ ppBoost rfl rfl (by norm_num)).2.1
      (by norm_num [ppBoost]),
   (capture_redirect ⟨true, 1⟩ ppIdle rfl rfl (by norm_num)).1
      (by norm_num [ppIdle])⟩

/-- C3: if the hardware is supported but render-target allocation
returns null, `init` logs a warning and sets the user-configuration
postprocess flag to false. -/
theorem init_rtt_failure (inp : InitInput) (cfg : Bool)
    (s : PostProcessing)
    (hsup : (inp.arb_glsl && inp.pixel_shader_2_0 &&
             inp.render_to_target) = true)
    (hrt : inp.rtt_ok = false) :
    (PostProcessing.init inp cfg s).postprocess_enabled = false ∧
    Warning.renderTargetCreationFailed ∈
      (PostProcessing.init inp cfg s).warnings := by
  constructor <;> simp [PostProcessing.init, hsup, hrt]

/-- Concrete `init` input: all capabilities present, allocation fails. -/
def inpAllocFail : InitInput :=
  { arb_glsl := true, pixel_shader_2_0 := true, render_to_target := true,
    texture_nsquare := true, texture_npot := true, rtt_ok := false,
    shader_material := 3, shader_dir := "data/shaders/" }

/-- Witness for C3. -/
theorem init_rtt_failure_witness :
    (PostProcessing.init inpAllocFail true ppIdle).postprocess_enabled
        = false ∧
    Warning.renderTargetCreationFailed ∈
      (PostProcessing.init inpAllocFail true ppIdle).warnings :=
  init_rtt_failure inpAllocFail true ppIdle rfl rfl

/-- Concrete `init` input: `ARB_GLSL` absent, every texture capability
present, allocation would succeed. -/
def inpNoGLSL : InitInput :=
  { arb_glsl := false, pixel_shader_2_0 := true, render_to_target := true,
    texture_nsquare := true, texture_npot := true, rtt_ok := true,
    shader_material := 3, shader_dir := "data/shaders/" }

/-- C4 counterexample: with `ARB_GLSL` reported false but both texture
capabilities present, `init` leaves the feature disabled yet logs no
warning at all, contradicting the claim that a warning is logged on
capability absence. -/
theorem init_caps_no_warning_counterexample :
    inpNoGLSL.arb_glsl = false ∧
    (PostProcessing.init inpNoGLSL true ppIdle).state.m_supported
        = false ∧
    (PostProcessing.init inpNoGLSL true ppIdle).warnings = [] :=
  ⟨rfl, rfl, rfl⟩

/-- C4 (amended): when any of the three queried capability flags is
false, `init` leaves the feature disabled (`m_supported` false, the
render target untouched, no shaders loaded) and the configuration flag
unchanged; no warning is logged for the capability absence itself
(warnings come only from the texture-dimension checks). -/
theorem init_caps_absent (inp : InitInput) (cfg : Bool)
    (s : PostProcessing)
    (h : (inp.arb_glsl && inp.pixel_shader_2_0 &&
          inp.render_to_target) = false) :
    (PostProcessing.init inp cfg s).state.m_supported = false ∧
    (PostProcessing.init inp cfg s).state.m_render_target
        = s.m_render_target ∧
    (PostProcessing.init inp cfg s).shader_files = [] ∧
    (PostProcessing.init inp cfg s).postprocess_enabled = cfg ∧
    (PostProcessing.init inp cfg s).warnings =
      (if !inp.texture_npot then [Warning.onlyPowerOfTwoTextures]
       else []) ++
      (if !inp.texture_nsquare then [Warning.onlySquareTextures]
       else []) := by
  refine ⟨?_, ?_, ?_, ?_, ?_⟩ <;> simp [PostProcessing.init, h]

/-- Witness for the amended C4. -/
theorem init_caps_absent_witness :
    (PostProcessing.init inpNoGLSL true ppIdle).state.m_supported
        = false ∧
    (PostProcessing.init inpNoGLSL true ppIdle).shader_files = [] :=
  ⟨(init_caps_absent inpNoGLSL true ppIdle rfl).1,
   (init_caps_absent inpNoGLSL true ppIdle rfl).2.2.1⟩

/-- C7: when supported, `init` loads exactly the vertex and fragment
shader files, with paths formed by appending the file names to the
shader directory; when unsupported, it loads none. -/
theorem init_shader_files (inp : InitInput) (cfg : Bool)
    (s : PostProcessing) :
    ((inp.arb_glsl && inp.pixel_shader_2_0 &&
      inp.render_to_target) = true →
      (PostProcessing.init inp cfg s).shader_files =
        [inp.shader_dir ++ "motion_blur.vert",
         inp.shader_dir ++ "motion_blur.frag"]) ∧
    ((inp.arb_glsl && inp.pixel_shader_2_0 &&
      inp.render_to_target) = false →
      (PostProcessing.init inp cfg s).shader_files = []) := by
  constructor <;> intro h <;> simp [PostProcessing.init, h]

/-- Concrete `init` input with every capability present. -/
def inpAllCaps : InitInput :=
  { arb_glsl := true, pixel_shader_2_0 := true, render_to_target := true,
    texture_nsquare := true, texture_npot := true, rtt_ok := true,
    shader_material := 3, shader_dir := "data/shaders/" }

/-- Witness for C7. -/
theorem init_shader_files_witness :
    (PostProcessing.init inpAllCaps true ppIdle).shader_files =
      ["data/shaders/" ++ "motion_blur.vert",
       "data/shaders/" ++ "motion_blur.frag"] :=
  (init_shader_files inpAllCaps true ppIdle).1 rfl

/-- One `update` step in closed form: from a non-negative boost and a
non-negative `dt`, the new boost is `max 0 (old - dt * 3.5)`. -/
theorem update_boost_eq_max (s : PostProcessing) (dt : ℚ)
    (hb : 0 ≤ s.m_boost_amount) (hdt : 0 ≤ dt) :
    (PostProcessing.update dt s).m_boost_amount =
      max 0 (s.m_boost_amount - dt * (7/2)) := by
  unfold PostProcessing.update
  by_cases h1 : s.m_boost_amount > 0
  · rw [if_pos h1]
    show (if s.m_boost_amount - dt * (7/2) < 0 then (0:ℚ)
          else s.m_boost_amount - dt * (7/2)) =
        max 0 (s.m_boost_amount - dt * (7/2))
    by_cases h2 : s.m_boost_amount - dt * (7/2) < 0
    · rw [if_pos h2]
      exact (max_eq_left h2.le).symm
    · rw [if_neg h2]
      exact (max_eq_right (not_lt.mp h2)).symm
  · rw [if_neg h1]
    have hb0 : s.m_boost_amount = 0 := le_antisymm (not_lt.mp h1) hb
    rw [hb0, max_eq_left (by linarith)]

/-- A sequence of `update` steps in closed form: with non-negative `dt`
values, the final boost is `max 0 (old - sum * 3.5)`. -/
theorem updates_boost_eq_max (l : List ℚ) (s : PostProcessing)
    (hb : 0 ≤ s.m_boost_amount) (hl : ∀ dt ∈ l, 0 ≤ dt) :
    (PostProcessing.updates l s).m_boost_amount =
      max 0 (s.m_boost_amount - l.sum * (7/2)) := by
  induction l generalizing s with
  | nil =>
      simp only [PostProcessing.updates, List.foldl_nil, List.sum_nil,
        zero_mul, sub_zero]
      exact (max_eq_right hb).symm
  | cons dt l ih =>
      have hdt : 0 ≤ dt := hl dt (by simp)
      have hl' : ∀ x ∈ l, (0:ℚ) ≤ x := fun x hx => hl x (by simp [hx])
      have hstep := update_boost_eq_max s dt hb hdt
      have hb' : 0 ≤ (PostProcessing.update dt s).m_boost_amount := by
        rw [hstep]; exact le_max_left _ _
      have htail : PostProcessing.updates (dt :: l) s =
          PostProcessing.updates l (PostProcessing.update dt s) := rfl
      rw [htail, ih (PostProcessing.update dt s) hb' hl', hstep,
        List.sum_cons]
      have hsum : (0:ℚ) ≤ l.sum := List.sum_nonneg hl'
      rcases le_total (s.m_boost_amount - dt * (7/2)) 0 with h | h
      · rw [max_eq_left h, max_eq_left (by linarith),
          max_eq_left (by linarith)]
      · rw [max_eq_right h]
        congr 1
        ring

/-- C2: once triggered, the boost decays monotonically to zero at the
fixed rate 3.5 per second: `update` with `dt ≥ 0` never increases the
boost, subtracts exactly `dt * 3.5` while that stays non-negative, any
update sequence whose `dt` values sum to at least `boost / 3.5` brings
it to exactly 0, and from 0 it stays 0. -/
theorem boost_decays (s : PostProcessing) :
    (∀ dt : ℚ, 0 ≤ dt →
      (PostProcessing.update dt s).m_boost_amount ≤ s.m_boost_amount) ∧
    (∀ dt : ℚ, 0 ≤ dt → 0 < s.m_boost_amount →
      0 ≤ s.m_boost_amount - dt * (7/2) →
      (PostProcessing.update dt s).m_boost_amount =
        s.m_boost_amount - dt * (7/2)) ∧
    (∀ l : List ℚ, (∀ dt ∈ l, 0 ≤ dt) → 0 < s.m_boost_amount →
      s.m_boost_amount / (7/2) ≤ l.sum →
      (PostProcessing.updates l s).m_boost_amount = 0) ∧
    (s.m_boost_amount = 0 → ∀ dt : ℚ,
      (PostProcessing.update dt s).m_boost_amount = 0) := by
  refine ⟨fun dt hdt => ?_, fun dt hdt hpos hnn => ?_,
    fun l hl hpos hsum => ?_, fun h0 dt => ?_⟩
  · unfold PostProcessing.update
    by_cases h1 : s.m_boost_amount > 0
    · rw [if_pos h1]
      show (if s.m_boost_amount - dt * (7/2) < 0 then (0:ℚ)
            else s.m_boost_amount - dt * (7/2)) ≤ s.m_boost_amount
      by_cases h2 : s.m_boost_amount - dt * (7/2) < 0
      · rw [if_pos h2]
        linarith
      · rw [if_neg h2]
        linarith
    · rw [if_neg h1]
  · have hno : ¬ (s.m_boost_amount - dt * (7/2) < 0) := not_lt.mpr hnn
    simp [PostProcessing.update, hpos, hno]
  · rw [updates_boost_eq_max l s hpos.le hl]
    have h72 : (0:ℚ) < 7/2 := by norm_num
    have hle : s.m_boost_amount ≤ l.sum * (7/2) :=
      (div_le_iff₀ h72).mp hsum
    exact max_eq_left (by linarith)
  · simp [PostProcessing.update, h0]

/-- Witness for C2: from boost 2.5, one step of `dt = 1/2` subtracts
exactly `7/4`, and steps summing to `3/4 ≥ (5/2)/(7/2)` reach 0. -/
theorem boost_decays_witness :
    (PostProcessing.update (1/2) ppBoost).m_boost_amount =
      ppBoost.m_boost_amount - (1/2) * (7/2) ∧
    (PostProcessing.updates [1/2, 1/4] ppBoost).m_boost_amount = 0 :=
  ⟨(boost_decays ppBoost).2.1 (1/2) (by norm_num) (by norm_num [ppBoost])
      (by norm_num [ppBoost]),
   (boost_decays ppBoost).2.2.1 [1/2, 1/4]
      (by
        intro dt hdt
        rcases List.mem_cons.mp hdt with rfl | hdt
        · norm_num
        · rcases List.mem_cons.mp hdt with rfl | hdt
          · norm_num
          · exact absurd hdt (List.not_mem_nil _))
      (by norm_num [ppBoost]) (by norm_num [ppBoost])⟩

/-- The mutable state visible to the post-`init` operations: the object
members plus the global configuration flag. -/
structure FullState where
  pp : PostProcessing
  postprocess_enabled : Bool
deriving DecidableEq, Repr

/-- One call to a `PostProcessing` operation other than `init`; the
capture/render calls carry the player count read from the race manager
at call time. -/
inductive Op where
  | shut
  | beginCapture (numPlayers : Nat)
  | endCapture (numPlayers : Nat)
  | update (dt : ℚ)
  | render (numPlayers : Nat)
  | giveBoost
  | onSetConstants
deriving DecidableEq, Repr

/-- Apply one operation; none of them writes the configuration flag. -/
def applyOp (o : Op) (fs : FullState) : FullState :=
  match o with
  | .shut => { fs with pp := PostProcessing.shut fs.pp }
  | .beginCapture n =>
      { fs with pp :=
          (PostProcessing.beginCapture ⟨fs.postprocess_enabled, n⟩ fs.pp).1 }
  | .endCapture n =>
      { fs with pp :=
          (PostProcessing.endCapture ⟨fs.postprocess_enabled, n⟩ fs.pp).1 }
  | .update dt => { fs with pp := PostProcessing.update dt fs.pp }
  | .render n =>
      { fs with pp :=
          (PostProcessing.render ⟨fs.postprocess_enabled, n⟩ fs.pp).1 }
  | .giveBoost => { fs with pp := PostProcessing.giveBoost fs.pp }
  | .onSetConstants => fs

/-- Run a sequence of operations left to right. -/
def runOps (l : List Op) (fs : FullState) : FullState :=
  l.foldl (fun fs o => applyOp o fs) fs

/-- No single operation changes the configuration flag or
`m_supported`. -/
theorem applyOp_preserves (o : Op) (fs : FullState) :
    (applyOp o fs).postprocess_enabled = fs.postprocess_enabled ∧
    (applyOp o fs).pp.m_supported = fs.pp.m_supported := by
  cases o with
  | shut => exact ⟨rfl, rfl⟩
  | beginCapture n =>
      refine ⟨rfl, ?_⟩
      simp only [applyOp]
      unfold PostProcessing.beginCapture
      split_ifs <;> rfl
  | endCapture n =>
      refine ⟨rfl, ?_⟩
      simp only [applyOp]
      unfold PostProcessing.endCapture
      split_ifs <;> rfl
  | update dt =>
      refine ⟨rfl, ?_⟩
      simp only [applyOp]
      unfold PostProcessing.update
      split_ifs <;> rfl
  | render n =>
      refine ⟨rfl, ?_⟩
      simp only [applyOp]
      unfold PostProcessing.render
      split_ifs <;> rfl
  | giveBoost => exact ⟨rfl, rfl⟩
  | onSetConstants => exact ⟨rfl, rfl⟩

/-- C8: no operation other than `init` writes `m_supported`, and no
operation sets the configuration flag at all; hence if either is false,
it stays false over every sequence of `shut` / `beginCapture` /
`endCapture` / `update` / `render` / `giveBoost` / `OnSetConstants`. -/
theorem feature_off_permanent (l : List Op) (fs : FullState) :
    ((runOps l fs).postprocess_enabled = fs.postprocess_enabled ∧
     (runOps l fs).pp.m_supported = fs.pp.m_supported) ∧
    ((fs.pp.m_supported = false ∨ fs.postprocess_enabled = false) →
      (runOps l fs).pp.m_supported = false ∨
      (runOps l fs).postprocess_enabled = false) := by
  have key : ∀ (l : List Op) (fs : FullState),
      (runOps l fs).postprocess_enabled = fs.postprocess_enabled ∧
      (runOps l fs).pp.m_supported = fs.pp.m_supported := by
    intro l
    induction l with
    | nil => exact fun fs => ⟨rfl, rfl⟩
    | cons o l ih =>
        intro fs
        have h1 := applyOp_preserves o fs
        have h2 := ih (applyOp o fs)
        have hrun : runOps (o :: l) fs = runOps l (applyOp o fs) := rfl
        exact ⟨by rw [hrun, h2.1, h1.1], by rw [hrun, h2.2, h1.2]⟩
  refine ⟨key l fs, fun h => ?_⟩
  rcases h with h | h
  · exact Or.inl (by rw [(key l fs).2, h])
  · exact Or.inr (by rw [(key l fs).1, h])

/-- A concrete state with the configuration flag off. -/
def fsOff : FullState := { pp := ppBoost, postprocess_enabled := false }

/-- A concrete operation sequence exercising every non-`init`
operation. -/
def opsAll : List Op :=
  [Op.giveBoost, Op.update 1, Op.beginCapture 1, Op.endCapture 1,
   Op.render 1, Op.shut, Op.onSetConstants, Op.beginCapture 2]

/-- Witness for C8: starting with the flag off, after the whole
operation sequence the feature is still off. -/
theorem feature_off_permanent_witness :
    (runOps opsAll fsOff).pp.m_supported = false ∨
    (runOps opsAll fsOff).postprocess_enabled = false :=
  (feature_off_permanent opsAll fsOff).2 (Or.inr rfl)

/-- C10: the constructor sets the boost to 0, `giveBoost` sets it to
2.5, and `update` preserves non-negativity for every `dt`, negative
included. -/
theorem boost_nonneg (sup used : Bool) (rt : Option Unit)
    (mat : Material) (s : PostProcessing) (dt : ℚ) :
    (PostProcessing.construct sup used rt mat).m_boost_amount = 0 ∧
    (PostProcessing.giveBoost s).m_boost_amount = 5/2 ∧
    (0 ≤ s.m_boost_amount →
      0 ≤ (PostProcessing.update dt s).m_boost_amount) := by
  refine ⟨rfl, rfl, fun hb => ?_⟩
  unfold PostProcessing.update
  by_cases h1 : s.m_boost_amount > 0
  · rw [if_pos h1]
    show (0:ℚ) ≤ (if s.m_boost_amount - dt * (7/2) < 0 then (0:ℚ)
          else s.m_boost_amount - dt * (7/2))
    by_cases h2 : s.m_boost_amount - dt * (7/2) < 0
    · rw [if_pos h2]
    · rw [if_neg h2]
      linarith [not_lt.mp h2]
  · rw [if_neg h1]
    exact hb

/-- Witness for C10 at a negative `dt`. -/
theorem boost_nonneg_witness :
    0 ≤ (PostProcessing.update (-1) ppBoost).m_boost_amount :=
  (boost_nonneg true false (some ()) mat0 ppBoost (-1)).2.2
    (by norm_num [ppBoost])

end STK
